import Mathlib

/-!
Verification development for the GenerateVideos repository.

The repository procedurally generates short music videos.  The parts of the
code relevant to the claims below are shallowly embedded here:

* `src/musicGenerator.js` — the genre template registry and the Tone.js
  script generator `_generateToneScript`, whose four scheduling loops
  (kick, hi-hat, bass, chord/melody) are embedded as lists of rational
  timestamps; the duration sampling of `generateMusic` is embedded as
  `sampleDuration`.
* `src/visualGenerator.js` (its source is reproduced in the repository's
  documentation) — the visual style registry, the per-frame scene
  computation (`_generateFrame` / `_drawVisualizer` / `_drawParticles` /
  `_drawGeometricPatterns`) and the intro/outro fade opacity.
* `src/videoRenderer.js` and `generate.js` — the artifact lifecycle of a
  generation request (which files/directories exist after each stage,
  and what each catch block removes) is embedded as a transition function
  over an abstract file system.
* the path handling of `generate.js` (`path.basename` / `path.join`) is
  embedded over lists of path components.

JavaScript numbers are embedded as exact rationals (`ℚ`) where the code
does arithmetic on small fractions, and as real numbers (`ℝ`) where the
code calls the transcendental `Math.sin` / `Math.cos`.
-/

/-- A genre template from `MusicGenerator.genreTemplates`
(`src/musicGenerator.js`).  The `duration` object is embedded as the two
fields `durMin` / `durMax`. -/
structure GenreTemplate where
  tempo : ℕ
  scale : List String
  bassNotes : List String
  chords : List (List String)
  durMin : ℕ
  durMax : ℕ
  deriving DecidableEq, Repr

/-- The `electronic` genre template. -/
def electronicT : GenreTemplate :=
  { tempo := 128
  , scale := ["C4", "D4", "E4", "G4", "A4", "C5"]
  , bassNotes := ["C2", "G2", "A2", "F2"]
  , chords := [["C4", "E4", "G4"], ["G3", "B3", "D4"], ["A3", "C4", "E4"], ["F3", "A3", "C4"]]
  , durMin := 180
  , durMax := 300 }

/-- The `ambient` genre template. -/
def ambientT : GenreTemplate :=
  { tempo := 80
  , scale := ["C4", "D4", "F4", "G4", "A4", "C5", "D5"]
  , bassNotes := ["C2", "F2", "G2"]
  , chords := [["C4", "E4", "G4", "B4"], ["F3", "A3", "C4", "E4"], ["G3", "B3", "D4", "F4"]]
  , durMin := 180
  , durMax := 300 }

/-- The `hiphop` genre template. -/
def hiphopT : GenreTemplate :=
  { tempo := 90
  , scale := ["C4", "D4", "Eb4", "F4", "G4", "Ab4", "Bb4", "C5"]
  , bassNotes := ["C2", "Eb2", "F2", "G2"]
  , chords := [["C4", "Eb4", "G4"], ["F3", "Ab3", "C4"], ["G3", "Bb3", "D4"]]
  , durMin := 180
  , durMax := 300 }

/-- The `pop` genre template. -/
def popT : GenreTemplate :=
  { tempo := 120
  , scale := ["C4", "D4", "E4", "F4", "G4", "A4", "B4", "C5"]
  , bassNotes := ["C2", "F2", "G2", "A2"]
  , chords := [["C4", "E4", "G4"], ["F3", "A3", "C4"], ["G3", "B3", "D4"], ["A3", "C4", "E4"]]
  , durMin := 180
  , durMax := 300 }

/-- The `techno` genre template. -/
def technoT : GenreTemplate :=
  { tempo := 140
  , scale := ["C4", "D4", "F4", "G4", "A4", "C5"]
  , bassNotes := ["C2", "C2", "D2", "F2"]
  , chords := [["C4", "F4", "G4"], ["D4", "F4", "A4"], ["C4", "E4", "G4"], ["F3", "A3", "C4"]]
  , durMin := 180
  , durMax := 300 }

/-- The genre template registry `this.genreTemplates`, as an association
list keyed by genre name. -/
def genreTemplates : List (String × GenreTemplate) :=
  [("electronic", electronicT), ("ambient", ambientT), ("hiphop", hiphopT),
   ("pop", popT), ("techno", technoT)]

/-- The five templates of the registry, without their keys. -/
def registryTemplates : List GenreTemplate :=
  [electronicT, ambientT, hiphopT, popT, technoT]

/-- Source `this.genreTemplates[genre] || this.genreTemplates.electronic`
(line 84 of `src/musicGenerator.js`): the musical template lookup with its
fallback to `electronic`. -/
def lookupTemplate (genre : String) : GenreTemplate :=
  (genreTemplates.lookup genre).getD electronicT

/-- A visual style from `VisualGenerator._getVisualStyle`
(`src/visualGenerator.js`). -/
structure VisualStyle where
  colors : List String
  backgroundColor : String
  shapeType : String
  particleCount : ℕ
  waveAmplitude : ℕ
  deriving DecidableEq, Repr

/-- The `electronic` visual style. -/
def electronicStyle : VisualStyle :=
  { colors := ["#00ffff", "#ff00ff", "#ffff00", "#00ff00"]
  , backgroundColor := "#000000", shapeType := "geometric"
  , particleCount := 50, waveAmplitude := 100 }

/-- The `ambient` visual style. -/
def ambientStyle : VisualStyle :=
  { colors := ["#4a90e2", "#7b68ee", "#9370db", "#ba55d3"]
  , backgroundColor := "#0a0a1a", shapeType := "organic"
  , particleCount := 30, waveAmplitude := 150 }

/-- The `hiphop` visual style. -/
def hiphopStyle : VisualStyle :=
  { colors := ["#ff4500", "#ffa500", "#ffff00", "#ff6347"]
  , backgroundColor := "#1a1a1a", shapeType := "sharp"
  , particleCount := 40, waveAmplitude := 80 }

/-- The `pop` visual style. -/
def popStyle : VisualStyle :=
  { colors := ["#ff1493", "#ff69b4", "#ffc0cb", "#ffb6c1"]
  , backgroundColor := "#ffffff", shapeType := "round"
  , particleCount := 60, waveAmplitude := 120 }

/-- The `techno` visual style. -/
def technoStyle : VisualStyle :=
  { colors := ["#ff0000", "#00ff00", "#0000ff", "#ffffff"]
  , backgroundColor := "#000000", shapeType := "geometric"
  , particleCount := 70, waveAmplitude := 90 }

/-- The visual style table of `_getVisualStyle`, as an association list. -/
def visualStyles : List (String × VisualStyle) :=
  [("electronic", electronicStyle), ("ambient", ambientStyle), ("hiphop", hiphopStyle),
   ("pop", popStyle), ("techno", technoStyle)]

/-- Source `styles[genre] || styles.electronic`: the visual style lookup with its
fallback to `electronic` (`VisualGenerator._getVisualStyle`). -/
def lookupStyle (genre : String) : VisualStyle :=
  (visualStyles.lookup genre).getD electronicStyle

/-! ## Event scheduler (`_generateToneScript`)

The generated Tone.js script schedules four layers of events over the
time axis `[0, duration]`.  Only the timestamps matter for the claims:
the pitch content of the melody layer is random, but the timestamps of
all layers are deterministic.  Timestamps are exact rationals. -/

/-- Source `const beatDuration = 60 / tempo;`. -/
def beatDuration (t : GenreTemplate) : ℚ := 60 / (t.tempo : ℚ)

/-- Source `const totalBeats = Math.floor(duration / beatDuration);`. -/
def totalBeats (t : GenreTemplate) (d : ℚ) : ℕ := Nat.floor (d / beatDuration t)

/-- Kick drum layer: `for (i = 0; i < totalBeats; i++) if (i % 2 === 0)
kick.triggerAttackRelease('C1', '8n', i * beatDuration)`. -/
def kickTimes (t : GenreTemplate) (d : ℚ) : List ℚ :=
  ((List.range (totalBeats t d)).filter (fun i => i % 2 = 0)).map
    (fun (i : ℕ) => (i : ℚ) * beatDuration t)

/-- Hi-hat layer: `for (i = 0; i < totalBeats * 2; i++)
hihat.triggerAttackRelease('16n', i * beatDuration / 2, ...)`. -/
def hihatTimes (t : GenreTemplate) (d : ℚ) : List ℚ :=
  (List.range (totalBeats t d * 2)).map (fun (i : ℕ) => (i : ℚ) * beatDuration t / 2)

/-- Bass layer: `for (i = 0; i < totalBeats / 4; i++)
bass.triggerAttackRelease(note, '2n', i * beatDuration * 4)`.
The JavaScript loop bound `i < totalBeats / 4` holds real division, so an
integer `i` iterates `⌈totalBeats / 4⌉ = (totalBeats + 3) / 4` times. -/
def bassTimes (t : GenreTemplate) (d : ℚ) : List ℚ :=
  (List.range ((totalBeats t d + 3) / 4)).map (fun (i : ℕ) => (i : ℚ) * beatDuration t * 4)

/-- Chord events of the harmonic layer: `for (i = 0; i < totalBeats / 8; i++)
synth.triggerAttackRelease(chord, '4n', i * beatDuration * 8)`; the loop
runs `⌈totalBeats / 8⌉ = (totalBeats + 7) / 8` times. -/
def chordTimes (t : GenreTemplate) (d : ℚ) : List ℚ :=
  (List.range ((totalBeats t d + 7) / 8)).map (fun (i : ℕ) => (i : ℚ) * beatDuration t * 8)

/-- Melody notes of the harmonic layer: inside the chord loop,
`for (j = 0; j < 4; j++) synth.triggerAttackRelease(note, '8n',
i * beatDuration * 8 + j * beatDuration * 2, ...)`. -/
def melodyTimes (t : GenreTemplate) (d : ℚ) : List ℚ :=
  (List.range ((totalBeats t d + 7) / 8)).flatMap
    (fun i => (List.range 4).map
      (fun (j : ℕ) => (i : ℚ) * beatDuration t * 8 + (j : ℚ) * beatDuration t * 2))

/-- All timestamps of the four layers other than the interleaved melody
notes (kick, hi-hat, bass, chord stabs), concatenated in generation
order. -/
def nonMelodyTimes (t : GenreTemplate) (d : ℚ) : List ℚ :=
  kickTimes t d ++ hihatTimes t d ++ bassTimes t d ++ chordTimes t d

/-- Every timestamp the generated Tone.js script schedules, concatenated
in generation order. -/
def scheduleTimes (t : GenreTemplate) (d : ℚ) : List ℚ :=
  nonMelodyTimes t d ++ melodyTimes t d

/-- Source `Math.floor(Math.random() * (template.duration.max - template.duration.min)
+ template.duration.min)` (line 85 of `src/musicGenerator.js`), with the
`Math.random()` draw `r ∈ [0, 1)` made explicit. -/
def sampleDuration (t : GenreTemplate) (r : ℚ) : ℕ :=
  Nat.floor (r * ((t.durMax : ℚ) - (t.durMin : ℚ)) + (t.durMin : ℚ))

/-! ## Bounds on the scheduled timestamps -/

lemma beatDuration_pos (t : GenreTemplate) (ht : 0 < t.tempo) : 0 < beatDuration t := by
  unfold beatDuration
  have : (0 : ℚ) < (t.tempo : ℚ) := by exact_mod_cast ht
  positivity

lemma totalBeats_mul_le (t : GenreTemplate) (d : ℚ) (ht : 0 < t.tempo) (hd : 0 ≤ d) :
    (totalBeats t d : ℚ) * beatDuration t ≤ d := by
  have hbd := beatDuration_pos t ht
  have h1 : (totalBeats t d : ℚ) ≤ d / beatDuration t :=
    Nat.floor_le (div_nonneg hd hbd.le)
  exact (le_div_iff₀ hbd).mp h1

lemma mem_kickTimes {t : GenreTemplate} {d ts : ℚ} (h : ts ∈ kickTimes t d) :
    ∃ i : ℕ, i < totalBeats t d ∧ ts = (i : ℚ) * beatDuration t := by
  unfold kickTimes at h
  obtain ⟨i, hi, rfl⟩ := List.mem_map.mp h
  exact ⟨i, List.mem_range.mp (List.mem_filter.mp hi).1, rfl⟩

lemma mem_hihatTimes {t : GenreTemplate} {d ts : ℚ} (h : ts ∈ hihatTimes t d) :
    ∃ i : ℕ, i < totalBeats t d * 2 ∧ ts = (i : ℚ) * beatDuration t / 2 := by
  unfold hihatTimes at h
  obtain ⟨i, hi, rfl⟩ := List.mem_map.mp h
  exact ⟨i, List.mem_range.mp hi, rfl⟩

lemma mem_bassTimes {t : GenreTemplate} {d ts : ℚ} (h : ts ∈ bassTimes t d) :
    ∃ i : ℕ, i < (totalBeats t d + 3) / 4 ∧ ts = (i : ℚ) * beatDuration t * 4 := by
  unfold bassTimes at h
  obtain ⟨i, hi, rfl⟩ := List.mem_map.mp h
  exact ⟨i, List.mem_range.mp hi, rfl⟩

lemma mem_chordTimes {t : GenreTemplate} {d ts : ℚ} (h : ts ∈ chordTimes t d) :
    ∃ i : ℕ, i < (totalBeats t d + 7) / 8 ∧ ts = (i : ℚ) * beatDuration t * 8 := by
  unfold chordTimes at h
  obtain ⟨i, hi, rfl⟩ := List.mem_map.mp h
  exact ⟨i, List.mem_range.mp hi, rfl⟩

lemma mem_melodyTimes {t : GenreTemplate} {d ts : ℚ} (h : ts ∈ melodyTimes t d) :
    ∃ i j : ℕ, i < (totalBeats t d + 7) / 8 ∧ j < 4 ∧
      ts = (i : ℚ) * beatDuration t * 8 + (j : ℚ) * beatDuration t * 2 := by
  unfold melodyTimes at h
  obtain ⟨i, hi, h2⟩ := List.mem_flatMap.mp h
  obtain ⟨j, hj, rfl⟩ := List.mem_map.mp h2
  exact ⟨i, j, List.mem_range.mp hi, List.mem_range.mp hj, rfl⟩

/-- Every layer of the schedule except the interleaved melody notes stays
strictly below the requested duration, and the melody notes stay below
`d + 6 * beatDuration`. -/
lemma scheduleSafe (t : GenreTemplate) (d : ℚ) (ht : 0 < t.tempo) (hd : 0 < d) :
    (∀ ts ∈ nonMelodyTimes t d, 0 ≤ ts ∧ ts < d) ∧
    (∀ ts ∈ melodyTimes t d, 0 ≤ ts ∧ ts < d + 6 * beatDuration t) := by
  have hbd := beatDuration_pos t ht
  have hBd := totalBeats_mul_le t d ht hd.le
  constructor
  · intro ts hts
    unfold nonMelodyTimes at hts
    rcases List.mem_append.mp hts with hts | hts'
    rcases List.mem_append.mp hts with hts | hts''
    rcases List.mem_append.mp hts with hk | hh
    · -- kick layer
      obtain ⟨i, hiB, rfl⟩ := mem_kickTimes hk
      have hiB' : (i : ℚ) < (totalBeats t d : ℚ) := by exact_mod_cast hiB
      refine ⟨by positivity, ?_⟩
      have := mul_lt_mul_of_pos_right hiB' hbd
      linarith
    · -- hi-hat layer
      obtain ⟨i, hiB, rfl⟩ := mem_hihatTimes hh
      have hiB' : (i : ℚ) < (totalBeats t d : ℚ) * 2 := by exact_mod_cast hiB
      refine ⟨by positivity, ?_⟩
      have := mul_lt_mul_of_pos_right hiB' hbd
      linarith
    · -- bass layer
      obtain ⟨i, hiB, rfl⟩ := mem_bassTimes hts''
      have h4 : 4 * i < totalBeats t d := by
        have hdiv := Nat.div_mul_le_self (totalBeats t d + 3) 4
        omega
      have h4' : (4 : ℚ) * (i : ℚ) < (totalBeats t d : ℚ) := by exact_mod_cast h4
      refine ⟨by positivity, ?_⟩
      have := mul_lt_mul_of_pos_right h4' hbd
      linarith
    · -- chord stabs of the harmonic layer
      obtain ⟨i, hiB, rfl⟩ := mem_chordTimes hts'
      have h8 : 8 * i < totalBeats t d := by
        have hdiv := Nat.div_mul_le_self (totalBeats t d + 7) 8
        omega
      have h8' : (8 : ℚ) * (i : ℚ) < (totalBeats t d : ℚ) := by exact_mod_cast h8
      refine ⟨by positivity, ?_⟩
      have := mul_lt_mul_of_pos_right h8' hbd
      linarith
  · intro ts hts
    obtain ⟨i, j, hiB, hj, rfl⟩ := mem_melodyTimes hts
    have h8 : 8 * i < totalBeats t d := by
      have hdiv := Nat.div_mul_le_self (totalBeats t d + 7) 8
      omega
    have h8' : (8 : ℚ) * (i : ℚ) < (totalBeats t d : ℚ) := by exact_mod_cast h8
    have hj' : (j : ℚ) ≤ 3 := by exact_mod_cast Nat.lt_succ_iff.mp hj
    refine ⟨by positivity, ?_⟩
    have h1 := mul_lt_mul_of_pos_right h8' hbd
    have h2 : (j : ℚ) * beatDuration t ≤ 3 * beatDuration t :=
      mul_le_mul_of_nonneg_right hj' hbd.le
    linarith

/-! ## Claim C1 -/

/-- C1 (amended): for every genre template in the registry and every
duration `d` inside the template's `durationRange` (both endpoints
included), every timestamp of the pulse (kick), secondary percussive
(hi-hat) and bass layers, and of the chord events of the harmonic layer,
lies in `[0, d)`; the 4 interleaved melody notes per 8-beat cycle lie in
`[0, d + 6 * beatDuration)` and can reach or exceed `d` (see the
counterexample). -/
theorem c1_schedule_range (t : GenreTemplate) (ht : t ∈ registryTemplates) (d : ℚ)
    (h1 : (t.durMin : ℚ) ≤ d) (h2 : d ≤ (t.durMax : ℚ)) :
    (∀ ts ∈ nonMelodyTimes t d, 0 ≤ ts ∧ ts < d) ∧
    (∀ ts ∈ melodyTimes t d, 0 ≤ ts ∧ ts < d + 6 * beatDuration t) := by
  have ht0 : 0 < t.tempo := by
    fin_cases ht <;> norm_num [electronicT, ambientT, hiphopT, popT, technoT]
  have hd : 0 < d := by
    fin_cases ht <;>
      (norm_num [electronicT, ambientT, hiphopT, popT, technoT] at h1; linarith)
  exact scheduleSafe t d ht0 hd

/-- Witness for `c1_schedule_range`: the first kick of the electronic
template at the lower endpoint `d = 180` is at timestamp `0 ∈ [0, 180)`. -/
theorem c1_schedule_range_witness : 0 ≤ (0 : ℚ) ∧ (0 : ℚ) < 180 := by
  have hB : totalBeats electronicT 180 = 384 := by
    norm_num [totalBeats, beatDuration, electronicT, Nat.floor_eq_iff]
  have hmem : (0 : ℚ) ∈ nonMelodyTimes electronicT 180 := by
    refine List.mem_append_left _ (List.mem_append_left _ (List.mem_append_left _ ?_))
    unfold kickTimes
    refine List.mem_map.mpr ⟨0, ?_, by norm_num⟩
    rw [hB]
    decide
  exact (c1_schedule_range electronicT (by decide) 180
    (by norm_num [electronicT]) (by norm_num [electronicT])).1 0 hmem

/-- C1 counterexample: `180` is the lower endpoint of techno's
`durationRange`, yet the melody note of cycle `i = 52`, offset `j = 3`
is scheduled at `52·8·(3/7) + 3·2·(3/7) = 1266/7 ≈ 180.86 ≥ 180`, so not
every timestamp of `schedule(techno, 180)` is strictly below the
duration. -/
theorem c1_counterexample :
    (technoT.durMin : ℚ) = 180 ∧
    ¬ (∀ ts ∈ scheduleTimes technoT 180, 0 ≤ ts ∧ ts < 180) := by
  refine ⟨by norm_num [technoT], fun h => ?_⟩
  have hB : totalBeats technoT 180 = 420 := by
    norm_num [totalBeats, beatDuration, technoT, Nat.floor_eq_iff]
  have hmem : (1266 / 7 : ℚ) ∈ scheduleTimes technoT 180 := by
    refine List.mem_append_right _ ?_
    unfold melodyTimes
    rw [hB]
    refine List.mem_flatMap.mpr ⟨52, by decide, ?_⟩
    refine List.mem_map.mpr ⟨3, by decide, ?_⟩
    norm_num [beatDuration, technoT]
  have := (h _ hmem).2
  norm_num at this

/-! ## Claim C4 -/

/-- C4 counterexample: with the electronic template (128 BPM) and the
test's fixed duration of 10 seconds, the beat count is
`floor(10 / (60/128)) = 21` and the kick loop fires on the 11 even
indices `0, 2, …, 20`, so the pulse layer emits 11 events — not
`floor(10 / (60/128)) / 2`, which is `21 / 2 = 10` as integer division
(and `10.5` as exact division). -/
theorem c4_counterexample :
    (kickTimes electronicT 10).length = 11 ∧
    totalBeats electronicT 10 = 21 ∧
    (kickTimes electronicT 10).length ≠ totalBeats electronicT 10 / 2 ∧
    ((kickTimes electronicT 10).length : ℚ) ≠ (totalBeats electronicT 10 : ℚ) / 2 := by
  have hB : totalBeats electronicT 10 = 21 := by
    norm_num [totalBeats, beatDuration, electronicT, Nat.floor_eq_iff]
  have hlen : (kickTimes electronicT 10).length = 11 := by
    unfold kickTimes
    simp only [List.length_map, hB]
    decide
  refine ⟨hlen, hB, ?_, ?_⟩
  · rw [hlen, hB]
    decide
  · rw [hlen, hB]
    norm_num

/-- C4 (amended): in the 10-second electronic scenario the pulse layer
emits exactly `⌈21 / 2⌉ = 11` events (the beat count 21 is odd, so the
even-indexed beats number 11, one more than `floor(21/2)`); the events
are the timestamps `i · beatDuration` for the even beats
`i = 0, 2, …, 20`, all inside `[0, 10)`. -/
theorem c4_kick_events :
    kickTimes electronicT 10 =
      [0, 15/16, 15/8, 45/16, 15/4, 75/16, 45/8, 105/16, 15/2, 135/16, 75/8] ∧
    (kickTimes electronicT 10).length = (totalBeats electronicT 10 + 1) / 2 := by
  have hB : totalBeats electronicT 10 = 21 := by
    norm_num [totalBeats, beatDuration, electronicT, Nat.floor_eq_iff]
  constructor
  · unfold kickTimes
    rw [hB]
    simp [List.range_succ, beatDuration, electronicT]
    norm_num
  · unfold kickTimes
    simp only [List.length_map, hB]
    decide

/-! ## Claim C3 -/

/-- C3 counterexample: no draw `r ∈ [0, 1)` of `Math.random()` makes
`Math.floor(r * (max - min) + min)` equal to `max` for the electronic
template — the upper endpoint 300 of the inclusive range is never
attained. -/
theorem c3_counterexample :
    ¬ ∃ r : ℚ, 0 ≤ r ∧ r < 1 ∧ sampleDuration electronicT r = electronicT.durMax := by
  rintro ⟨r, h0, h1, heq⟩
  unfold sampleDuration at heq
  norm_num [electronicT] at heq
  have hq : (0 : ℚ) ≤ r * 120 + 180 := by nlinarith
  have h300 : ((300 : ℕ) : ℚ) ≤ r * 120 + 180 :=
    (Nat.le_floor_iff hq).mp (le_of_eq heq.symm)
  push_cast at h300
  linarith

/-- C3 (amended): for a template with `min ≤ max` and any draw
`r ∈ [0, 1)`, the sampled duration `v` satisfies `min ≤ v`, and when
`min < max` also `v < max` (i.e. `v ≤ max - 1`): the sampling covers
`[min, max)`, not the inclusive range, and `max` itself is unattainable
while `max - 1` is attained (for electronic, by `r = 119/120`). -/
theorem c3_duration_sampling (t : GenreTemplate) (r : ℚ)
    (hmm : t.durMin ≤ t.durMax) (h0 : 0 ≤ r) (h1 : r < 1) :
    (t.durMin ≤ sampleDuration t r ∧
      (t.durMin < t.durMax → sampleDuration t r < t.durMax)) ∧
    sampleDuration electronicT (119 / 120) = 299 := by
  have hspan : (0 : ℚ) ≤ (t.durMax : ℚ) - (t.durMin : ℚ) := by
    have : (t.durMin : ℚ) ≤ (t.durMax : ℚ) := by exact_mod_cast hmm
    linarith
  have hq0 : (0 : ℚ) ≤ r * ((t.durMax : ℚ) - (t.durMin : ℚ)) + (t.durMin : ℚ) := by
    positivity
  refine ⟨⟨?_, ?_⟩, ?_⟩
  · exact Nat.le_floor (by nlinarith)
  · intro hlt
    have hspan' : (0 : ℚ) < (t.durMax : ℚ) - (t.durMin : ℚ) := by
      have : (t.durMin : ℚ) < (t.durMax : ℚ) := by exact_mod_cast hlt
      linarith
    have hq : r * ((t.durMax : ℚ) - (t.durMin : ℚ)) + (t.durMin : ℚ) < (t.durMax : ℚ) := by
      nlinarith
    exact (Nat.floor_lt hq0).mpr hq
  · norm_num [sampleDuration, electronicT, Nat.floor_eq_iff]

/-- Witness for `c3_duration_sampling`: the electronic template with the
draw `r = 1/2` yields a duration inside `[180, 300)`. -/
theorem c3_duration_sampling_witness :
    180 ≤ sampleDuration electronicT (1 / 2) ∧
      sampleDuration electronicT (1 / 2) < 300 := by
  have h := c3_duration_sampling electronicT (1 / 2)
    (by norm_num [electronicT]) (by norm_num) (by norm_num)
  refine ⟨h.1.1, h.1.2 (by norm_num [electronicT])⟩

/-! ## Claim C5 -/

/-- Association-list lookup misses every key it does not contain. -/
lemma lookup_none_of_not_key {β : Type} (g : String)
    (l : List (String × β)) (h : ∀ p ∈ l, g ≠ p.1) : l.lookup g = none := by
  induction l with
  | nil => rfl
  | cons p rest ih =>
    have h1 : g ≠ p.1 := h p (List.mem_cons_self p rest)
    have h2 : ∀ q ∈ rest, g ≠ q.1 := fun q hq => h q (List.mem_cons_of_mem p hq)
    simp [List.lookup, beq_eq_false_iff_ne.mpr h1, ih h2]

/-- C5 counterexample: for the unregistered genre name `"jazz"`, the
*musical* template lookup `genreTemplates[genre] || genreTemplates.electronic`
does perform the fallback — it returns electronic's template, exactly as
the visual-style lookup returns electronic's style.  The fallback is
symmetric, not asymmetric. -/
theorem c5_counterexample :
    lookupTemplate "jazz" = electronicT ∧ lookupStyle "jazz" = electronicStyle :=
  ⟨rfl, rfl⟩

/-- C5 (amended): for every genre name outside the five registered names,
*both* lookups fall back to `electronic`: the unrecognized name yields
electronic's visual style and also electronic's musical genre template. -/
theorem c5_lookup_fallback (g : String)
    (h : g ∉ ["electronic", "ambient", "hiphop", "pop", "techno"]) :
    lookupTemplate g = electronicT ∧ lookupStyle g = electronicStyle := by
  simp only [List.mem_cons, not_or, List.not_mem_nil] at h
  obtain ⟨h1, h2, h3, h4, h5, -⟩ := h
  have hkeysT : genreTemplates.lookup g = none := by
    apply lookup_none_of_not_key
    intro p hp
    unfold genreTemplates at hp
    fin_cases hp <;> simpa using ‹_›
  have hkeysS : visualStyles.lookup g = none := by
    apply lookup_none_of_not_key
    intro p hp
    unfold visualStyles at hp
    fin_cases hp <;> simpa using ‹_›
  unfold lookupTemplate lookupStyle
  rw [hkeysT, hkeysS]
  exact ⟨rfl, rfl⟩

/-- Witness for `c5_lookup_fallback`, at the unregistered name `"jazz"`. -/
theorem c5_lookup_fallback_witness :
    lookupTemplate "jazz" = electronicT ∧ lookupStyle "jazz" = electronicStyle :=
  c5_lookup_fallback "jazz" (by decide)

/-! ## Visual generator (`src/visualGenerator.js`)

The per-frame scene computation.  The JavaScript code calls the ambient
`Math.random()` in the music generator but never in the visual
generator; the ambient random source is made explicit as a `RandSource` state
threaded through the computations that could consume it. -/

/-- The ambient JavaScript random source: a pre-drawn stream of values of
`Math.random()` together with a cursor. -/
structure RandSource where
  seq : ℕ → ℚ
  idx : ℕ

/-- One call of `Math.random()`: yields the next value of the stream and
advances the cursor. -/
def randNext (r : RandSource) : ℚ × RandSource :=
  (r.seq r.idx, ⟨r.seq, r.idx + 1⟩)

/-- The duration sampling of `generateMusic` with its `Math.random()` call
made explicit. -/
def sampleDurationR (t : GenreTemplate) (r : RandSource) : ℕ × RandSource :=
  let p := randNext r
  (sampleDuration t p.1, p.2)

/-- Source `this.fps = 30` in the `VisualGenerator` constructor. -/
def visualFps : ℕ := 30

/-- Source `const time = frameNum / this.fps;`. -/
noncomputable def timeOf (frameNum fps : ℕ) : ℝ := (frameNum : ℝ) / (fps : ℝ)

/-- Source `const beat = time * beatsPerSecond;` with
`const beatsPerSecond = tempo / 60;` -/
noncomputable def beatOf (frameNum fps tempo : ℕ) : ℝ :=
  timeOf frameNum fps * ((tempo : ℝ) / 60)

/-- Source `const intensity = Math.sin(beat * Math.PI) * 0.5 + 0.5;`
(`_generateFrame`). -/
noncomputable def intensityOf (beat : ℝ) : ℝ :=
  Real.sin (beat * Real.pi) * 0.5 + 0.5

/-- The phase of visualizer bar `i`:
`const frequency = i / barCount; const phase = beat + frequency * 4;`
with `barCount = 64` (`_drawVisualizer`). -/
noncomputable def barPhase (beat : ℝ) (i : ℕ) : ℝ :=
  beat + ((i : ℝ) / 64) * 4

/-- One visualizer bar: its height and the palette index used for it. -/
structure BarSpec where
  height : ℝ
  colorIndex : ℕ

/-- One particle: its centre position, radius and palette index. -/
structure ParticleSpec where
  x : ℝ
  y : ℝ
  size : ℝ
  colorIndex : ℕ

/-- The drawable state of one main frame, as computed by
`_generateFrame` and its three draw helpers. -/
structure SceneDescription where
  backgroundColor : String
  bars : List BarSpec
  particles : List ParticleSpec
  rotations : List ℝ

/-- The 64 bars drawn by `_drawVisualizer`:
`height = (Math.sin(phase * Math.PI) * 0.5 + 0.5) * style.waveAmplitude *
intensity` and `colorIndex = Math.floor((i / barCount) * style.colors.length)`. -/
noncomputable def barsOf (beat intensity : ℝ) (style : VisualStyle) : List BarSpec :=
  (List.range 64).map (fun (i : ℕ) =>
    { height := (Real.sin (barPhase beat i * Real.pi) * 0.5 + 0.5) *
        (style.waveAmplitude : ℝ) * intensity
    , colorIndex := Nat.floor ((i : ℚ) / 64 * (style.colors.length : ℚ)) })

/-- The particles drawn by `_drawParticles`: for `i < particleCount`,
`angle = (i / particleCount) * Math.PI * 2 + time * 0.5`,
`radius = 300 + Math.sin(beat + i) * 100`, position centred on the
1920×1080 frame, `size = 5 + Math.sin(beat * 2 + i) * 3`, colour
`colors[i % colors.length]`. -/
noncomputable def particlesOf (time beat : ℝ) (style : VisualStyle) : List ParticleSpec :=
  (List.range style.particleCount).map (fun (i : ℕ) =>
    let angle : ℝ := ((i : ℝ) / (style.particleCount : ℝ)) * Real.pi * 2 + time * 0.5
    let radius : ℝ := 300 + Real.sin (beat + (i : ℝ)) * 100
    { x := 1920 / 2 + Real.cos angle * radius
    , y := 1080 / 2 + Real.sin angle * radius
    , size := 5 + Real.sin (beat * 2 + (i : ℝ)) * 3
    , colorIndex := i % style.colors.length })

/-- The three rotation angles applied by `_drawGeometricPatterns`:
`rotation = beat * 0.5` and shape `i` is rotated by
`rotation + i * Math.PI * 2 / 3`. -/
noncomputable def rotationsOf (beat : ℝ) : List ℝ :=
  (List.range 3).map (fun (i : ℕ) => beat * 0.5 + (i : ℝ) * Real.pi * 2 / 3)

/-- The scene `_generateFrame(frameNum, beat, time, duration, style, dir)`
draws, as a function of the frame parameters.  The `duration` argument is
received (as in the source) but does not influence the scene. -/
noncomputable def frameScene (frameNum fps tempo duration : ℕ)
    (style : VisualStyle) : SceneDescription :=
  let time := timeOf frameNum fps
  let beat := beatOf frameNum fps tempo
  let intensity := intensityOf beat
  { backgroundColor := style.backgroundColor
  , bars := barsOf beat intensity style
  , particles := particlesOf time beat style
  , rotations := rotationsOf beat }

/-- Embedding of `_generateFrame` with the ambient random source threaded through:
none of `_drawVisualizer`, `_drawParticles`, `_drawGeometricPatterns`
contains a call to `Math.random()`, so the state passes through every
step unchanged. -/
noncomputable def frameSceneR (frameNum fps tempo duration : ℕ)
    (style : VisualStyle) (r : RandSource) : SceneDescription × RandSource :=
  let time := timeOf frameNum fps
  let beat := beatOf frameNum fps tempo
  let intensity := intensityOf beat
  let bars := barsOf beat intensity style
  let particles := particlesOf time beat style
  let rotations := rotationsOf beat
  ({ backgroundColor := style.backgroundColor
   , bars := bars, particles := particles, rotations := rotations }, r)

/-- Source `const opacity = Math.min(progress * 2, 1);` (`_generateIntroFrame`). -/
def introOpacity (progress : ℚ) : ℚ := min (progress * 2) 1

/-- Source `const opacity = Math.max(1 - progress * 2, 0);` (`_generateOutroFrame`). -/
def outroOpacity (progress : ℚ) : ℚ := max (1 - progress * 2) 0

/-- Source `const progress = frameNum / totalFrames;` (`generateIntro` /
`generateOutro`). -/
def frameProgress (frameNum totalFrames : ℕ) : ℚ :=
  (frameNum : ℚ) / (totalFrames : ℚ)

/-- Source `const totalFrames = Math.floor(duration * this.fps);`
(`generateVisuals`, main segment). -/
def mainTotalFrames (duration : ℕ) : ℕ :=
  Nat.floor ((duration : ℚ) * (visualFps : ℚ))

/-- Source `const totalFrames = Math.floor(durationSeconds * this.fps);`
(`generateIntro` / `generateOutro`, called with `durationSeconds = 3`). -/
def edgeTotalFrames (durationSeconds : ℕ) : ℕ :=
  Nat.floor ((durationSeconds : ℚ) * (visualFps : ℚ))

/-- The frame indices of the main segment loop
`for (frameNum = 0; frameNum < totalFrames; frameNum++)`. -/
def mainFrameIndices (duration : ℕ) : List ℕ :=
  List.range (mainTotalFrames duration)

/-- Source `const introDuration = introMetadata.frameCount / fps;`
(`VideoRenderer.renderIntro` / `renderOutro`): the exact video duration
of an edge segment. -/
def segmentDuration (frameCount fps : ℕ) : ℚ :=
  (frameCount : ℚ) / (fps : ℚ)

/-! ## Claim C6 -/

/-- C6 (confirmed): main-segment frame-state generation is a pure
function of `(frameIndex, fps, tempo, durationSeconds, style)`: with the
ambient random source made explicit, the scene produced is identical for
any two random states, the random state is returned unchanged (no
randomness is consumed), and the result coincides with the random-free
scene function — so two invocations with identical arguments produce
identical bar heights, particle positions and sizes, and rotation
angles. -/
theorem c6_frame_determinism :
    ∀ (frameNum fps tempo duration : ℕ) (style : VisualStyle) (r₁ r₂ : RandSource),
      (frameSceneR frameNum fps tempo duration style r₁).1 =
        (frameSceneR frameNum fps tempo duration style r₂).1 ∧
      (frameSceneR frameNum fps tempo duration style r₁).2 = r₁ ∧
      (frameSceneR frameNum fps tempo duration style r₁).1 =
        frameScene frameNum fps tempo duration style :=
  fun _ _ _ _ _ _ _ => ⟨rfl, rfl, rfl⟩

/-! ## Claim C7 -/

/-- C7 (confirmed): each of the 64 visualizer bars has height
`(sin(phase·π)·0.5 + 0.5) · waveAmplitude · intensity` with phase
`beat + (i/64)·4` and global intensity `sin(beat·π)·0.5 + 0.5`; at
`frameIndex = 0` the beat is `0`, the intensity is `0.5` and bar 0 has
phase `0`. -/
theorem c7_visualizer_bars :
    (∀ (style : VisualStyle) (beat : ℝ) (i : ℕ)
        (h : i < (barsOf beat (intensityOf beat) style).length),
        ((barsOf beat (intensityOf beat) style).get ⟨i, h⟩).height =
          (Real.sin ((beat + ((i : ℝ) / 64) * 4) * Real.pi) * 0.5 + 0.5) *
            (style.waveAmplitude : ℝ) * (Real.sin (beat * Real.pi) * 0.5 + 0.5)) ∧
    (∀ (style : VisualStyle) (beat intensity : ℝ),
        (barsOf beat intensity style).length = 64) ∧
    (∀ fps tempo : ℕ, beatOf 0 fps tempo = 0) ∧
    intensityOf 0 = 0.5 ∧
    barPhase 0 0 = 0 := by
  refine ⟨?_, ?_, ?_, ?_, ?_⟩
  · intro style beat i h
    simp [barsOf, barPhase, intensityOf]
  · intro style beat intensity
    simp [barsOf]
  · intro fps tempo
    simp [beatOf, timeOf]
  · norm_num [intensityOf]
  · simp [barPhase]

/-- Witness for `c7_visualizer_bars`: bar 0 of the electronic style at
beat 0. -/
theorem c7_visualizer_bars_witness :
    ∃ h : 0 < (barsOf 0 (intensityOf 0) electronicStyle).length,
      ((barsOf 0 (intensityOf 0) electronicStyle).get ⟨0, h⟩).height =
        (Real.sin ((0 + ((0 : ℕ) : ℝ) / 64 * 4) * Real.pi) * 0.5 + 0.5) *
          ((electronicStyle.waveAmplitude : ℕ) : ℝ) *
          (Real.sin ((0 : ℝ) * Real.pi) * 0.5 + 0.5) := by
  have hlen : (barsOf 0 (intensityOf 0) electronicStyle).length = 64 :=
    c7_visualizer_bars.2.1 electronicStyle 0 (intensityOf 0)
  have h : 0 < (barsOf 0 (intensityOf 0) electronicStyle).length := by
    rw [hlen]; norm_num
  exact ⟨h, c7_visualizer_bars.1 electronicStyle 0 0 h⟩

/-! ## Claim C8 -/

lemma frameProgress_mono {N i j : ℕ} (h : i ≤ j) :
    frameProgress i N ≤ frameProgress j N := by
  unfold frameProgress
  rcases Nat.eq_zero_or_pos N with hN | hN
  · subst hN
    simp
  · have hN' : (0 : ℚ) < (N : ℚ) := by exact_mod_cast hN
    have h' : (i : ℚ) ≤ (j : ℚ) := by exact_mod_cast h
    gcongr

/-- C8 (confirmed): with `progress = frameIndex / totalFrames`, intro
opacity is `min(progress·2, 1)` and outro opacity is
`max(1 - progress·2, 0)`; intro opacity is monotonically non-decreasing
and outro opacity monotonically non-increasing in `frameIndex`; at every
`progress ≥ 0.5` (in particular at exactly `0.5`) the intro opacity is
clamped at `1` and the outro opacity at `0`. -/
theorem c8_fade_opacity :
    (∀ N i j : ℕ, i ≤ j →
      introOpacity (frameProgress i N) ≤ introOpacity (frameProgress j N)) ∧
    (∀ N i j : ℕ, i ≤ j →
      outroOpacity (frameProgress j N) ≤ outroOpacity (frameProgress i N)) ∧
    (∀ p : ℚ, 1 / 2 ≤ p → introOpacity p = 1 ∧ outroOpacity p = 0) ∧
    introOpacity (1 / 2) = 1 ∧ outroOpacity (1 / 2) = 0 := by
  have hintro : ∀ p q : ℚ, p ≤ q → introOpacity p ≤ introOpacity q := by
    intro p q hpq
    unfold introOpacity
    exact min_le_min (by linarith) le_rfl
  have houtro : ∀ p q : ℚ, p ≤ q → outroOpacity q ≤ outroOpacity p := by
    intro p q hpq
    unfold outroOpacity
    exact max_le_max (by linarith) le_rfl
  refine ⟨?_, ?_, ?_, ?_, ?_⟩
  · intro N i j hij
    exact hintro _ _ (frameProgress_mono hij)
  · intro N i j hij
    exact houtro _ _ (frameProgress_mono hij)
  · intro p hp
    constructor
    · unfold introOpacity
      exact min_eq_right (by linarith)
    · unfold outroOpacity
      exact max_eq_right (by linarith)
  · unfold introOpacity
    norm_num
  · unfold outroOpacity
    norm_num

/-- Witness for `c8_fade_opacity`: frames 10 and 20 of a 90-frame intro,
and the clamped value at `progress = 3/4`. -/
theorem c8_fade_opacity_witness :
    introOpacity (frameProgress 10 90) ≤ introOpacity (frameProgress 20 90) ∧
    outroOpacity (frameProgress 20 90) ≤ outroOpacity (frameProgress 10 90) ∧
    introOpacity (3 / 4) = 1 ∧ outroOpacity (3 / 4) = 0 :=
  ⟨c8_fade_opacity.1 90 10 20 (by norm_num),
   c8_fade_opacity.2.1 90 10 20 (by norm_num),
   (c8_fade_opacity.2.2.1 (3 / 4) (by norm_num)).1,
   (c8_fade_opacity.2.2.1 (3 / 4) (by norm_num)).2⟩

/-! ## Claim C9 -/

/-- C9 (confirmed): for every integer `durationSeconds` the main segment
has exactly `duration * 30` frames (`300` for the 10-second test
scenario), every generated frame index is below that count, and the
intro/outro segments at their fixed 3-second duration consist of
`floor(3 * 30) = 90` frames, giving an exact edge-segment video duration
of `frameCount / fps = 3` seconds. -/
theorem c9_frame_counts :
    (∀ duration : ℕ, mainTotalFrames duration = duration * 30 ∧
      ∀ i ∈ mainFrameIndices duration, i < duration * 30) ∧
    mainTotalFrames 10 = 300 ∧
    edgeTotalFrames 3 = 90 ∧
    segmentDuration (edgeTotalFrames 3) visualFps = 3 := by
  have hmain : ∀ duration : ℕ, mainTotalFrames duration = duration * 30 := by
    intro duration
    unfold mainTotalFrames visualFps
    rw [show ((duration : ℚ) * ((30 : ℕ) : ℚ)) = ((duration * 30 : ℕ) : ℚ) by push_cast; ring]
    exact Nat.floor_natCast _
  have hedge : edgeTotalFrames 3 = 90 := by
    unfold edgeTotalFrames visualFps
    norm_num [Nat.floor_eq_iff]
  refine ⟨?_, by rw [hmain], hedge, ?_⟩
  · intro duration
    refine ⟨hmain duration, ?_⟩
    intro i hi
    unfold mainFrameIndices at hi
    rw [hmain duration] at hi
    exact List.mem_range.mp hi
  · rw [hedge]
    unfold segmentDuration visualFps
    norm_num

/-- Witness for `c9_frame_counts`: frame 5 of the 10-second main segment
is below the 300-frame count. -/
theorem c9_frame_counts_witness : 5 < 10 * 30 := by
  have h300 : mainTotalFrames 10 = 300 := c9_frame_counts.2.1
  refine (c9_frame_counts.1 10).2 5 ?_
  unfold mainFrameIndices
  rw [h300]
  decide

/-! ## Generation lifecycle (`generate.js` and `VideoRenderer.renderComplete`)

The artifacts a generation request creates, at the granularity the
cleanup claims speak about, and the stages that can fail.  Each stage of
`MusicVideoGenerator.generate` and each of the four awaited steps of
`VideoRenderer.renderComplete` either succeeds or throws; `generate`'s
catch block only logs and rethrows, while `renderComplete`'s catch block
(and its success path) removes the three segment files and the
`temp_segments` directory. -/

/-- The intermediate artifacts of one generation request. -/
inductive Artifact
  | projectDir    -- `output/<name>`
  | framesDir     -- `output/<name>/frames`
  | introDir      -- `output/<name>/intro`
  | outroDir      -- `output/<name>/outro`
  | audioFile     -- `output/<name>/audio.wav`
  | tempScript    -- `output/<name>/temp_music_script.js`
  | tempSegDir    -- `output/temp_segments`
  | introSeg      -- `output/temp_segments/intro.mp4`
  | mainSeg       -- `output/temp_segments/main.mp4`
  | outroSeg      -- `output/temp_segments/outro.mp4`
  | finalOutput   -- `output/<name>.mp4`
  deriving DecidableEq, Fintype

/-- The stages of a generation request that can fail. -/
inductive Stage
  | music          -- `generateMusic` (the executed Tone.js script)
  | introFrames    -- `generateIntro`
  | mainFrames     -- `generateVisuals`
  | outroFrames    -- `generateOutro`
  | renderIntroSeg -- `renderIntro`
  | renderMainSeg  -- `renderMain`
  | renderOutroSeg -- `renderOutro`
  | concatSegs     -- `concatenateVideos`
  deriving DecidableEq, Fintype

/-- An abstract file system: which artifacts currently exist. -/
def FS : Type := Artifact → Bool

/-- The file system before a request: nothing exists. -/
def FS.empty : FS := fun _ => false

/-- Create an artifact. -/
def FS.write (fs : FS) (a : Artifact) : FS :=
  fun x => if x = a then true else fs x

/-- Remove an artifact (`fs.unlinkSync` / `fs.rmSync`). -/
def FS.remove (fs : FS) (a : Artifact) : FS :=
  fun x => if x = a then false else fs x

/-- The directory setup at the start of `generate`:
`[projectDir, framesDir, introDir, outroDir].forEach(... mkdirSync ...)`. -/
def mkWorkDirs (fs : FS) : FS :=
  (((fs.write .projectDir).write .framesDir).write .introDir).write .outroDir

/-- The removals shared by `renderComplete`'s success path (lines 503–506
of `src/videoRenderer.js`) and its catch block (lines 516–519): unlink
`intro.mp4`, `main.mp4`, `outro.mp4` and remove `temp_segments`. -/
def segCleanup (fs : FS) : FS :=
  (((fs.remove .introSeg).remove .mainSeg).remove .outroSeg).remove .tempSegDir

/-- Embedding of `_cleanupTempFiles(projectDir)`: remove the three frame directories
and the audio file, then remove the project directory if it is empty.
In this artifact model the only other possible content of the project
directory is the temporary music script. -/
def cleanupTempFiles (fs : FS) : FS :=
  let fs' := (((fs.remove .framesDir).remove .introDir).remove .outroDir).remove .audioFile
  if fs' .tempScript then fs' else fs'.remove .projectDir

/-- Embedding of `VideoRenderer.renderComplete`: create `temp_segments`, render the
three segments, concatenate, and clean the segment intermediates up on
both exits.  `fault` names the stage made to fail, if any. -/
def renderCompleteRun (fault : Option Stage) (fs : FS) : Option Stage × FS :=
  let fs := fs.write .tempSegDir
  if fault = some .renderIntroSeg then (some .renderIntroSeg, segCleanup fs)
  else
    let fs := fs.write .introSeg
    if fault = some .renderMainSeg then (some .renderMainSeg, segCleanup fs)
    else
      let fs := fs.write .mainSeg
      if fault = some .renderOutroSeg then (some .renderOutroSeg, segCleanup fs)
      else
        let fs := fs.write .outroSeg
        if fault = some .concatSegs then (some .concatSegs, segCleanup fs)
        else
          let fs := fs.write .finalOutput
          (none, segCleanup fs)

/-- Embedding of `MusicVideoGenerator.generate`: directory setup, the five stages, and
— only on success — the cleanup of the working directory.  The catch
block of `generate` (lines 157–161 of `generate.js`) prints the error and
rethrows without removing anything, which this embedding mirrors by
returning the file system unchanged at the failing stage. -/
def generateRun (fault : Option Stage) : Option Stage × FS :=
  let fs := mkWorkDirs FS.empty
  -- Step 1: generateMusic writes the temp script, executes it (the
  -- script writes audio.wav), and unlinks the script on both exits.
  let fs := fs.write .tempScript
  if fault = some .music then (some .music, fs.remove .tempScript)
  else
    let fs := (fs.write .audioFile).remove .tempScript
    -- Steps 2–4: frame generation into the already-created directories.
    if fault = some .introFrames then (some .introFrames, fs)
    else if fault = some .mainFrames then (some .mainFrames, fs)
    else if fault = some .outroFrames then (some .outroFrames, fs)
    else
      -- Step 5: renderComplete; on a thrown error generate rethrows.
      match renderCompleteRun fault fs with
      | (some e, fs) => (some e, fs)
      | (none, fs) => (none, cleanupTempFiles fs)

/-! ## Claim C2 -/

/-- C2 counterexample: when music synthesis fails, the error propagates
while the per-request working directory — the project directory with its
frames/intro/outro subdirectories — still exists: `generate`'s catch
block does not remove the intermediate artifacts. -/
theorem c2_counterexample :
    (generateRun (some Stage.music)).1 = some Stage.music ∧
    (generateRun (some Stage.music)).2 Artifact.projectDir = true ∧
    (generateRun (some Stage.music)).2 Artifact.framesDir = true ∧
    (generateRun (some Stage.music)).2 Artifact.introDir = true ∧
    (generateRun (some Stage.music)).2 Artifact.outroDir = true := by
  decide

/-- C2 (amended): whichever stage fails, the error propagates with the
three intermediate encoded segment files and the `temp_segments`
directory removed and with no file at the final output location — but
the per-request working directory is *not* removed on failure (it
remains, as do its frame directories); all working artifacts are removed
only on a fully successful run, after which just the final output
exists. -/
theorem c2_failure_cleanup :
    (∀ s : Stage,
      (generateRun (some s)).1 = some s ∧
      (generateRun (some s)).2 Artifact.introSeg = false ∧
      (generateRun (some s)).2 Artifact.mainSeg = false ∧
      (generateRun (some s)).2 Artifact.outroSeg = false ∧
      (generateRun (some s)).2 Artifact.tempSegDir = false ∧
      (generateRun (some s)).2 Artifact.finalOutput = false ∧
      (generateRun (some s)).2 Artifact.tempScript = false ∧
      (generateRun (some s)).2 Artifact.projectDir = true) ∧
    ((generateRun none).1 = none ∧
      (∀ a : Artifact, (generateRun none).2 a = (a = Artifact.finalOutput : Bool))) := by
  decide

/-! ## Output path handling (`generate.js`)

`generate` computes
`sanitizedName = outputName ? path.basename(outputName) : music_video_...`,
`projectDir = path.join(outputDir, sanitizedName)` and
`videoPath = path.join(outputDir, sanitizedName + ".mp4")`.
POSIX paths are embedded as lists of components (each a list of
characters): `path.basename` keeps the last slash-separated non-empty
component, and `path.join` appends the new components and normalizes
`.` and `..` segments. -/

/-- Split a character sequence at `/`, accumulating the current segment
in reverse. -/
def splitComps : List Char → List Char → List (List Char)
  | [], acc => [acc.reverse]
  | c :: cs, acc =>
      if c = '/' then acc.reverse :: splitComps cs []
      else splitComps cs (c :: acc)

/-- The non-empty slash-separated components of a character sequence. -/
def compsOfChars (l : List Char) : List (List Char) :=
  (splitComps l []).filter (fun p => p ≠ [])

/-- The non-empty slash-separated components of a string. -/
def pathComponents (s : String) : List (List Char) :=
  compsOfChars s.toList

/-- Embedding of `path.basename(s)` (POSIX): the last non-empty component, or the
empty name when there is none (as for `''` or `'/'`). -/
def basenameC (s : String) : List Char :=
  ((pathComponents s).getLast?).getD []

/-- The default output name `music_video_${genre}_${timestamp}`. -/
def defaultNameC (genre : String) (timestamp : ℕ) : List Char :=
  ("music_video_" ++ genre ++ "_" ++ toString timestamp).toList

/-- Source `const sanitizedName = outputName ? path.basename(outputName) :
`music_video_${genre}_${timestamp}`;` — a missing or empty (falsy)
`outputName` selects the default name. -/
def sanitizedBaseC (outputName : Option String) (genre : String) (timestamp : ℕ) : List Char :=
  match outputName with
  | none => defaultNameC genre timestamp
  | some s => if s.toList = [] then defaultNameC genre timestamp else basenameC s

/-- The component `.`. -/
def dotC : List Char := ['.']

/-- The component `..`. -/
def dotdotC : List Char := ['.', '.']

/-- One normalization step of `path.join`: `.` is dropped, `..` removes
the last component, anything else is appended. -/
def resolveStep (acc : List (List Char)) (c : List Char) : List (List Char) :=
  if c = dotC then acc else if c = dotdotC then acc.dropLast else acc ++ [c]

/-- Embedding of `path.join(dir, s)`: split `s` into components and resolve them
against `dir`. -/
def joinResolve (dir : List (List Char)) (s : List Char) : List (List Char) :=
  (compsOfChars s).foldl resolveStep dir

/-- Source `this.outputDir = path.join(__dirname, 'output')`, with the
repository checkout as the surrounding directory. -/
def outputDirC : List (List Char) :=
  ["GenerateVideos".toList, "output".toList]

/-- Source `const projectDir = path.join(this.outputDir, sanitizedName);`. -/
def projectDirOf (outputName : Option String) (genre : String) (timestamp : ℕ) :
    List (List Char) :=
  joinResolve outputDirC (sanitizedBaseC outputName genre timestamp)

/-- Source `const videoPath = path.join(this.outputDir, sanitizedName + ".mp4");`. -/
def videoPathOf (outputName : Option String) (genre : String) (timestamp : ℕ) :
    List (List Char) :=
  joinResolve outputDirC (sanitizedBaseC outputName genre timestamp ++ ".mp4".toList)

/-- Whether the path `p` lies strictly inside the directory `dir`. -/
def underDir (dir p : List (List Char)) : Bool :=
  decide (p.take dir.length = dir) && decide (dir.length < p.length)

lemma splitComps_no_slash :
    ∀ (l acc : List Char), '/' ∉ acc → ∀ p ∈ splitComps l acc, '/' ∉ p := by
  intro l
  induction l with
  | nil =>
    intro acc hacc p hp
    simp only [splitComps, List.mem_singleton] at hp
    subst hp
    simpa using hacc
  | cons c cs ih =>
    intro acc hacc p hp
    by_cases hc : c = '/'
    · rw [splitComps, if_pos hc] at hp
      rcases List.mem_cons.mp hp with hp | hp
      · subst hp
        simpa using hacc
      · exact ih [] (by simp) p hp
    · rw [splitComps, if_neg hc] at hp
      refine ih (c :: acc) ?_ p hp
      intro hmem
      rcases List.mem_cons.mp hmem with h | h
      · exact hc h.symm
      · exact hacc h

lemma pathComponents_no_slash {s : String} {p : List Char}
    (hp : p ∈ pathComponents s) : '/' ∉ p := by
  unfold pathComponents compsOfChars at hp
  exact splitComps_no_slash s.toList [] (by simp) p (List.mem_of_mem_filter hp)

lemma pathComponents_ne_nil {s : String} {p : List Char}
    (hp : p ∈ pathComponents s) : p ≠ [] := by
  unfold pathComponents compsOfChars at hp
  simpa using (List.mem_filter.mp hp).2

lemma splitComps_of_no_slash :
    ∀ (l acc : List Char), '/' ∉ l → splitComps l acc = [acc.reverse ++ l] := by
  intro l
  induction l with
  | nil =>
    intro acc _
    simp [splitComps]
  | cons c cs ih =>
    intro acc h
    have hc : c ≠ '/' := fun e => h (e ▸ List.mem_cons_self c cs)
    have hcs : '/' ∉ cs := fun m => h (List.mem_cons_of_mem c m)
    rw [splitComps, if_neg (fun e => hc e)]
    rw [ih (c :: acc) hcs]
    simp

lemma compsOfChars_single {c : List Char} (h0 : c ≠ []) (h1 : '/' ∉ c) :
    compsOfChars c = [c] := by
  unfold compsOfChars
  rw [splitComps_of_no_slash c [] h1]
  simp [h0]

lemma joinResolve_single (dir : List (List Char)) {c : List Char}
    (h0 : c ≠ []) (h1 : '/' ∉ c) (h2 : c ≠ dotC) (h3 : c ≠ dotdotC) :
    joinResolve dir c = dir ++ [c] := by
  unfold joinResolve
  rw [compsOfChars_single h0 h1]
  simp [resolveStep, h2, h3]

lemma underDir_append_single (dir : List (List Char)) (c : List Char) :
    underDir dir (dir ++ [c]) = true := by
  unfold underDir
  simp [List.take_left]

/-! ## Claim C10 -/

/-- C10 counterexample: for `outputName = ".."`, `path.basename` returns
`".."` unchanged, so the per-request working directory
`path.join(outputDir, "..")` resolves to the *parent* of the generator's
output directory — it does not lie inside it.  (The final video path is
still inside, because the appended `".mp4"` suffix makes the name a
normal component.) -/
theorem c10_counterexample :
    underDir outputDirC (projectDirOf (some "..") "electronic" 0) = false ∧
    projectDirOf (some "..") "electronic" 0 = ["GenerateVideos".toList] ∧
    underDir outputDirC (videoPathOf (some "..") "electronic" 0) = true := by
  refine ⟨?_, ?_, ?_⟩ <;> rfl

/-- C10 (amended): `generate()` reduces `outputName` to its final path
component.  For every `outputName` whose basename is neither `.` nor
`..`, both the working directory `join(outputDir, basename)` and the
final output `join(outputDir, basename + ".mp4")` lie strictly inside
the generator's output directory; when the basename is `..` the working
directory escapes to the parent of the output directory (see the
counterexample), while the final output file stays inside. -/
theorem c10_output_containment (s : String) (bn : List Char)
    (hlast : (pathComponents s).getLast? = some bn)
    (h2 : bn ≠ dotC) (h3 : bn ≠ dotdotC) (genre : String) (ts : ℕ) :
    projectDirOf (some s) genre ts = outputDirC ++ [bn] ∧
    underDir outputDirC (projectDirOf (some s) genre ts) = true ∧
    videoPathOf (some s) genre ts = outputDirC ++ [bn ++ ".mp4".toList] ∧
    underDir outputDirC (videoPathOf (some s) genre ts) = true := by
  have hmem : bn ∈ pathComponents s := List.mem_of_mem_getLast? hlast
  have hnn : bn ≠ [] := pathComponents_ne_nil hmem
  have hns : '/' ∉ bn := pathComponents_no_slash hmem
  have hsne : s.toList ≠ [] := by
    intro h
    have hempty : pathComponents s = [] := by
      unfold pathComponents
      rw [h]
      rfl
    rw [hempty] at hlast
    simp at hlast
  have hbase : basenameC s = bn := by
    unfold basenameC
    rw [hlast]
    rfl
  have hsan : sanitizedBaseC (some s) genre ts = bn := by
    simp only [sanitizedBaseC]
    rw [if_neg hsne, hbase]
  have hmp4nn : bn ++ ".mp4".toList ≠ [] := by
    simp [hnn]
  have hmp4ns : '/' ∉ bn ++ ".mp4".toList := by
    intro hm
    rcases List.mem_append.mp hm with hm | hm
    · exact hns hm
    · simp at hm
  have hlb : 0 < bn.length := List.length_pos.mpr hnn
  have hmp4dot : bn ++ ".mp4".toList ≠ dotC := by
    intro h
    have := congrArg List.length h
    simp [dotC] at this
  have hmp4dotdot : bn ++ ".mp4".toList ≠ dotdotC := by
    intro h
    have := congrArg List.length h
    simp [dotdotC] at this
  have hproj : projectDirOf (some s) genre ts = outputDirC ++ [bn] := by
    unfold projectDirOf
    rw [hsan]
    exact joinResolve_single outputDirC hnn hns h2 h3
  have hvid : videoPathOf (some s) genre ts = outputDirC ++ [bn ++ ".mp4".toList] := by
    unfold videoPathOf
    rw [hsan]
    exact joinResolve_single outputDirC hmp4nn hmp4ns hmp4dot hmp4dotdot
  refine ⟨hproj, ?_, hvid, ?_⟩
  · rw [hproj]
    exact underDir_append_single outputDirC bn
  · rw [hvid]
    exact underDir_append_single outputDirC (bn ++ ".mp4".toList)

/-- Witness for `c10_output_containment`: the nested output name
`"videos/clip"` is reduced to `clip` and both paths stay inside the
output directory. -/
theorem c10_output_containment_witness :
    projectDirOf (some "videos/clip") "electronic" 0 =
      outputDirC ++ ["clip".toList] ∧
    underDir outputDirC (videoPathOf (some "videos/clip") "electronic" 0) = true := by
  have h := c10_output_containment "videos/clip" "clip".toList (by rfl)
    (by decide) (by decide) "electronic" 0
  exact ⟨h.1, h.2.2.2⟩
